import Mathlib

/-!
Verification of the QuickModelV6 stock-prediction engine
(`src/backend/python/models/quick_model_v6.py`).

The Python code is shallowly embedded over exact rational arithmetic:
every float becomes a `ℚ`, `np.clip` becomes `clipQ`, and Python's
`round(x, d)` (round-half-to-even) becomes `roundTo d x`.  The
transcendental `np.tanh` is modelled as an explicit function parameter
`th : ℚ → ℚ`; every theorem below is proved for an arbitrary `th`, so in
particular it holds for the real hyperbolic tangent.  `ratTanh` is a
concrete computable saturating function used to instantiate `th` in
witnesses and counterexamples.

Feature records (`Features`) mirror the Python feature dictionary: each
key the model reads is an `Option`-typed field (`none` = key absent), and
`features.get(k, d)` is translated as `f.k.getD d`.
-/

namespace QuickV6

/-- `np.clip(x, lo, hi)`: clamp `x` into `[lo, hi]`. -/
def clipQ (x lo hi : ℚ) : ℚ := min (max x lo) hi

/-- Round-half-to-even on rationals, the semantics of Python's `round`. -/
def roundHalfEven (x : ℚ) : ℤ :=
  let n := ⌊x⌋
  let r := x - n
  if r < 1/2 then n
  else if 1/2 < r then n + 1
  else if n % 2 = 0 then n else n + 1

/-- Python's `round(x, d)` modelled exactly on rationals. -/
def roundTo (d : ℕ) (x : ℚ) : ℚ := (roundHalfEven (x * 10 ^ d) : ℚ) / 10 ^ d

lemma clipQ_mem (x lo hi : ℚ) (h : lo ≤ hi) :
    lo ≤ clipQ x lo hi ∧ clipQ x lo hi ≤ hi := by
  constructor
  · exact le_min (le_max_right x lo) h
  · exact min_le_right _ _

lemma clipQ_le_of_le {x lo hi c : ℚ} (h1 : x ≤ c) (h2 : lo ≤ c) :
    clipQ x lo hi ≤ c := by
  unfold clipQ
  exact le_trans (min_le_left _ _) (max_le h1 h2)

lemma roundHalfEven_intCast (n : ℤ) : roundHalfEven (n : ℚ) = n := by
  unfold roundHalfEven
  rw [Int.floor_intCast]
  norm_num

lemma roundHalfEven_mono {x y : ℚ} (h : x ≤ y) :
    roundHalfEven x ≤ roundHalfEven y := by
  have hxf : roundHalfEven x ≤ ⌊x⌋ + 1 := by
    unfold roundHalfEven; simp only []; split_ifs <;> omega
  have hyf : ⌊y⌋ ≤ roundHalfEven y := by
    unfold roundHalfEven; simp only []; split_ifs <;> omega
  have hfm : ⌊x⌋ ≤ ⌊y⌋ := Int.floor_mono h
  rcases eq_or_lt_of_le hfm with he | hl
  · unfold roundHalfEven
    simp only []
    rw [← he]
    have h1 : (⌊x⌋ : ℚ) ≤ x := Int.floor_le x
    split_ifs <;> first | omega | (exfalso; linarith)
  · omega

lemma roundHalfEven_add_sub (N : ℤ) (hN : N % 2 = 0) (x : ℚ) :
    roundHalfEven x + roundHalfEven ((N : ℚ) - x) = N := by
  have h1 : (⌊x⌋ : ℚ) ≤ x := Int.floor_le x
  have h2 : x < ⌊x⌋ + 1 := Int.lt_floor_add_one x
  rcases eq_or_lt_of_le h1 with heq | hlt
  · obtain ⟨k, hk⟩ : ∃ k : ℤ, x = (k : ℚ) := ⟨⌊x⌋, heq.symm⟩
    subst hk
    have hcast : (N : ℚ) - (k : ℚ) = ((N - k : ℤ) : ℚ) := by push_cast; ring
    rw [hcast, roundHalfEven_intCast, roundHalfEven_intCast]
    omega
  · have hfl2 : ⌊(N : ℚ) - x⌋ = N - ⌊x⌋ - 1 := by
      rw [Int.floor_eq_iff]
      constructor
      · push_cast; linarith
      · push_cast; linarith
    unfold roundHalfEven
    simp only []
    rw [hfl2]
    push_cast
    split_ifs <;> first | omega | (exfalso; linarith)

lemma roundTo_mono (d : ℕ) {x y : ℚ} (h : x ≤ y) : roundTo d x ≤ roundTo d y := by
  unfold roundTo
  have h10 : (0 : ℚ) < 10 ^ d := by positivity
  apply (div_le_div_iff_of_pos_right h10).mpr
  exact_mod_cast roundHalfEven_mono (mul_le_mul_of_nonneg_right h (le_of_lt h10))

lemma roundTo_eq_self {d : ℕ} {x : ℚ} (k : ℤ) (h : x * 10 ^ d = (k : ℚ)) :
    roundTo d x = x := by
  unfold roundTo
  rw [h, roundHalfEven_intCast, ← h]
  exact mul_div_cancel_right₀ x (by positivity)

lemma roundTo_add_compl (x : ℚ) : roundTo 4 x + roundTo 4 (1 - x) = 1 := by
  unfold roundTo
  have hc : (1 - x) * 10 ^ 4 = ((10000 : ℤ) : ℚ) - x * 10 ^ 4 := by push_cast; ring
  rw [hc, div_add_div_same, ← Int.cast_add, roundHalfEven_add_sub 10000 (by norm_num)]
  norm_num

/-- Concrete computable saturating function standing in for `np.tanh` in
witnesses: odd, strictly inside `(-1, 1)`, monotone. -/
def ratTanh (x : ℚ) : ℚ := x / (1 + |x|)

/-- The feature dictionary passed to `QuickModelV6.predict`.  Every key the
model reads is a field; `none` models an absent key.  Keys the code fetches
but never uses (`price_change_3d`, `volume_spike`, `sp500_change_pct`,
`nasdaq_change_pct`, …) are omitted: they cannot affect any output. -/
structure Features where
  current_price : Option ℚ := none
  rsi : Option ℚ := none
  macd : Option ℚ := none
  macd_histogram : Option ℚ := none
  macd_signal_diff : Option ℚ := none
  sma_20 : Option ℚ := none
  sma_50 : Option ℚ := none
  sma_200 : Option ℚ := none
  bollinger_position : Option ℚ := none
  bollinger_width : Option ℚ := none
  price_change_1d : Option ℚ := none
  price_change_5d : Option ℚ := none
  near_support : Option Bool := none
  near_resistance : Option Bool := none
  bounce_from_support : Option Bool := none
  failed_resistance : Option Bool := none
  news_sentiment_score : Option ℚ := none
  news_count : Option ℚ := none
  bullish_keyword_count : Option ℚ := none
  bearish_keyword_count : Option ℚ := none
  bullish_keyword_score_total : Option ℚ := none
  bearish_keyword_score_total : Option ℚ := none
  has_high_impact_keywords : Option Bool := none
  earnings_surprise_percent : Option ℚ := none
  guidance_change_percent : Option ℚ := none
  has_surge_keywords : Option Bool := none
  surge_keyword_count : Option ℚ := none
  has_bearish_keywords : Option Bool := none
  social_sentiment : Option ℚ := none
  social_volume : Option ℚ := none
  sector_sentiment : Option ℚ := none
  analyst_upgrades : Option ℚ := none
  analyst_downgrades : Option ℚ := none
  asian_market_change : Option ℚ := none
  asian_market_sentiment : Option String := none
  asian_market_strength : Option ℚ := none
  european_market_change : Option ℚ := none
  european_market_sentiment : Option String := none
  european_market_strength : Option ℚ := none
  futures_sentiment : Option String := none
  futures_change : Option ℚ := none
  volume_ratio : Option ℚ := none
  volume_trend : Option String := none
  revenue_growth : Option ℚ := none
  earnings_growth : Option ℚ := none
  margin_change_percent : Option ℚ := none
  analyst_action : Option String := none
  insider_activity : Option String := none
  pe_percentile : Option ℚ := none
  intraday_change_percent : Option ℚ := none
  intraday_volume_ratio : Option ℚ := none
  open_close_gap_percent : Option ℚ := none
  us_market_influence_score : Option ℚ := none
  us_market_sentiment : Option String := none
  volatility : Option ℚ := none
  global_market_change : Option ℚ := none

/-! ### Component weights (`self.weights`) and confidence bounds -/

def wTechnical : ℚ := 0.25
def wSentiment : ℚ := 0.35
def wGlobalMarkets : ℚ := 0.15
def wVolume : ℚ := 0.12
def wFundamentals : ℚ := 0.08
def wIntraday : ℚ := 0.05

def minConfidence : ℚ := 0.55
def maxConfidence : ℚ := 0.98

/-! ### Technical scorer (`_calculate_technical_score_v2`)

Each branch ladder of the Python code is a named helper; the scorer threads
a `(score, count)` pair through the blocks exactly as the Python code
mutates its `score` and `count` locals. -/

/-- RSI branch ladder (lines 263‑279). -/
def rsiContrib (r : ℚ) : ℚ :=
  if r < 25 then 0.9
  else if r < 30 then 0.8
  else if r < 40 then 0.4
  else if r > 75 then -0.9
  else if r > 70 then -0.8
  else if r > 60 then -0.4
  else (50 - r) / 100 * 0.3

/-- MACD histogram branch ladder (lines 285‑296). -/
def macdHistContrib (h : ℚ) : ℚ :=
  if h > 1 then 0.85
  else if h > 0.3 then 0.5
  else if h > 0 then 0.25
  else if h < -1 then -0.85
  else if h < -0.3 then -0.5
  else -0.25

/-- MACD divergence detection (lines 299‑303); adds to the sum but does not
touch the counter in the source. -/
def macdDivergence (msd h : ℚ) : ℚ :=
  if msd > 0.5 ∧ h < 0 then 0.3
  else if msd < -0.5 ∧ h > 0 then -0.3
  else 0

/-- Price vs moving-average alignment (lines 312‑320). -/
def maPositionContrib (cp s20 s50 : ℚ) : ℚ :=
  if cp > s20 ∧ s20 > s50 then 0.7
  else if cp > s20 then 0.4
  else if cp < s20 ∧ s20 < s50 then -0.7
  else if cp < s20 then -0.4
  else 0

/-- Golden/death cross detection (lines 322‑327). -/
def maCrossContrib (sma200 : Option ℚ) (s20 s50 : ℚ) : ℚ :=
  match sma200 with
  | none => 0
  | some s200 =>
    if s50 > s200 ∧ s20 > s50 then 0.5
    else if s50 < s200 ∧ s20 < s50 then -0.5
    else 0

/-- Bollinger-band position ladder (lines 334‑342). -/
def bollContrib (bp : ℚ) : ℚ :=
  if bp < 0.15 then 0.6
  else if bp < 0.3 then 0.35
  else if bp > 0.85 then -0.6
  else if bp > 0.7 then -0.35
  else 0

/-- Bollinger band squeeze bonus (lines 344‑346). -/
def bollSqueeze (bw : ℚ) : ℚ := if bw < 0.1 then 0.2 else 0

/-- 1-day momentum term with the extra big-drop penalty (lines 355‑360). -/
def dayMomentum (th : ℚ → ℚ) (pc1 : ℚ) : ℚ :=
  th (pc1 / 3) * 0.5 + (if pc1 < -2 then -0.3 else 0)

/-- Support-side adjustment (lines 375‑378); no counter increment. -/
def supportContrib (f : Features) : ℚ :=
  if f.bounce_from_support.getD false then 0.5
  else if f.near_support.getD false then 0.3
  else 0

/-- Resistance-side adjustment (lines 380‑383); no counter increment. -/
def resistanceContrib (f : Features) : ℚ :=
  if f.failed_resistance.getD false then -0.5
  else if f.near_resistance.getD false then -0.3
  else 0

/-- `_calculate_technical_score_v2`: sequential accumulation of
`(score, count)` followed by `np.clip(score / max(count, 1) if count > 0
else 0, -1, 1)`. -/
def technicalScore (th : ℚ → ℚ) (f : Features) : ℚ :=
  let sc0 : ℚ × ℕ := (0, 0)
  let sc1 := match f.rsi with
    | none => sc0
    | some r => (sc0.1 + rsiContrib r, sc0.2 + 1)
  let sc2 := match f.macd_histogram with
    | none => sc1
    | some h =>
      (sc1.1 + macdHistContrib h + macdDivergence (f.macd_signal_diff.getD 0) h,
       sc1.2 + 1)
  let sc3 := match f.sma_20, f.sma_50, f.current_price with
    | some s20, some s50, some cp =>
      (sc2.1 + maPositionContrib cp s20 s50 + maCrossContrib f.sma_200 s20 s50,
       sc2.2 + 1)
    | _, _, _ => sc2
  let sc4 := match f.bollinger_position with
    | none => sc3
    | some bp =>
      (sc3.1 + bollContrib bp + bollSqueeze (f.bollinger_width.getD 0), sc3.2 + 1)
  let pc1 := f.price_change_1d.getD 0
  let sc5 := if |pc1| > 0 then (sc4.1 + dayMomentum th pc1, sc4.2 + 1) else sc4
  let pc5 := f.price_change_5d.getD 0
  let sc6 := if |pc5| > 0 then (sc5.1 + th (pc5 / 8) * 0.4, sc5.2 + 1) else sc5
  let sc7 := (sc6.1 + supportContrib f + resistanceContrib f, sc6.2)
  clipQ (if 0 < sc7.2 then sc7.1 / ((max sc7.2 1 : ℕ) : ℚ) else 0) (-1) 1

/-- Total of every technical sub-signal contribution that reaches the
accumulated sum (including divergence, cross, support/resistance). -/
def techSum (th : ℚ → ℚ) (f : Features) : ℚ :=
  (match f.rsi with | some r => rsiContrib r | none => 0)
  + (match f.macd_histogram with
     | some h => macdHistContrib h + macdDivergence (f.macd_signal_diff.getD 0) h
     | none => 0)
  + (match f.sma_20, f.sma_50, f.current_price with
     | some s20, some s50, some cp =>
       maPositionContrib cp s20 s50 + maCrossContrib f.sma_200 s20 s50
     | _, _, _ => 0)
  + (match f.bollinger_position with
     | some bp => bollContrib bp + bollSqueeze (f.bollinger_width.getD 0)
     | none => 0)
  + (if |f.price_change_1d.getD 0| > 0
     then dayMomentum th (f.price_change_1d.getD 0) else 0)
  + (if |f.price_change_5d.getD 0| > 0
     then th (f.price_change_5d.getD 0 / 8) * 0.4 else 0)
  + supportContrib f + resistanceContrib f

/-- The evaluation counter of the technical scorer: only the six main
blocks increment it. -/
def techCount (f : Features) : ℕ :=
  (match f.rsi with | some _ => 1 | none => 0)
  + (match f.macd_histogram with | some _ => 1 | none => 0)
  + (match f.sma_20, f.sma_50, f.current_price with
     | some _, some _, some _ => 1 | _, _, _ => 0)
  + (match f.bollinger_position with | some _ => 1 | none => 0)
  + (if |f.price_change_1d.getD 0| > 0 then 1 else 0)
  + (if |f.price_change_5d.getD 0| > 0 then 1 else 0)

/-! ### Sentiment scorer (`_calculate_sentiment_score_v2`) -/

/-- `_calculate_sentiment_score_v2` (lines 388‑484): news base sentiment,
keyword net, earnings/guidance, surge/bearish keywords, social, sector and
analyst terms, each gated and counted, then `clip(score/count)`. -/
def sentimentScore (th : ℚ → ℚ) (f : Features) : ℚ :=
  let ns := f.news_sentiment_score.getD 0
  let nc := f.news_count.getD 0
  let p1 : ℚ × ℕ := if nc > 0 then (ns * min (nc / 15) 1 * 0.5, 1) else (0, 0)
  let bkc := f.bullish_keyword_count.getD 0
  let brc := f.bearish_keyword_count.getD 0
  let bks := f.bullish_keyword_score_total.getD 0
  let brs := f.bearish_keyword_score_total.getD 0
  let p2 := if bkc > 0 ∨ brc > 0 then
      (let q := (p1.1 + th ((bks - brs) / 10) * 0.7, p1.2 + 1)
       if f.has_high_impact_keywords.getD false then
         (q.1 + 0.3 * (if bks ≥ brs then 1 else -1), q.2 + 1)
       else q)
    else p1
  let es := f.earnings_surprise_percent.getD 0
  let gc := f.guidance_change_percent.getD 0
  let p3 := if |es| > 0 then
      (let q := (p2.1 + th (es / 15) * 0.8, p2.2 + 1)
       if |gc| > 0 then (q.1 + th (gc / 10) * 0.6, q.2 + 1) else q)
    else p2
  let skc := f.surge_keyword_count.getD 0
  let p4 := if f.has_surge_keywords.getD false
    then (p3.1 + min (skc / 5) 1 * 0.85, p3.2 + 1) else p3
  let p5 := if f.has_bearish_keywords.getD false
    then (p4.1 - min (brc / 5) 1 * 0.85, p4.2 + 1) else p4
  let ss := f.social_sentiment.getD 0
  let sv := f.social_volume.getD 0
  let p6 := if |ss| > 0 then (p5.1 + ss * min (sv / 1000) 1 * 0.6, p5.2 + 1) else p5
  let secs := f.sector_sentiment.getD 0
  let p7 := if |secs| > 0 then (p6.1 + secs * 0.3, p6.2 + 1) else p6
  let au := f.analyst_upgrades.getD 0
  let p8 := if au > 0 then (p7.1 + min (au / 3) 1 * 0.5, p7.2 + 1) else p7
  let ad := f.analyst_downgrades.getD 0
  let p9 := if ad > 0 then (p8.1 - min (ad / 3) 1 * 0.5, p8.2 + 1) else p8
  clipQ (if 0 < p9.2 then p9.1 / ((max p9.2 1 : ℕ) : ℚ) else 0) (-1) 1

/-! ### Global-market scorer (`_calculate_global_market_score_v2`) -/

/-- `_calculate_global_market_score_v2` (lines 515‑558): Asian, European and
futures terms summed directly, then clamped. -/
def globalScore (th : ℚ → ℚ) (f : Features) : ℚ :=
  let ac := f.asian_market_change.getD 0
  let asent := f.asian_market_sentiment.getD "neutral"
  let astr := f.asian_market_strength.getD 0
  let s1 : ℚ :=
    if asent = "positive" then 0.65
    else if asent = "negative" then -0.65
    else if |ac| > 0.5 then th ac * 0.6
    else 0
  let s2 := s1 + (if astr > 0 then astr * 0.2 else 0)
  let ec := f.european_market_change.getD 0
  let esent := f.european_market_sentiment.getD "neutral"
  let s3 := s2 +
    (if esent = "positive" then 0.2
     else if esent = "negative" then -0.2
     else if |ec| > 0.5 then th ec * 0.15
     else 0)
  let fsent := f.futures_sentiment.getD "neutral"
  let fc := f.futures_change.getD 0
  let s4 := s3 +
    (if fsent = "positive" then 0.2
     else if fsent = "negative" then -0.2
     else if |fc| > 0.5 then th fc * 0.15
     else 0)
  clipQ s4 (-1) 1

/-! ### Region attribution scorers -/

/-- `_calculate_asian_market_score_with_impact` (lines 560‑586): returns
`(clip(score, -1, 1), clip(impact_pct, 0, 10))`. -/
def asianWithImpact (th : ℚ → ℚ) (f : Features) : ℚ × ℚ :=
  let ac := f.asian_market_change.getD 0
  let asent := f.asian_market_sentiment.getD "neutral"
  let astr := f.asian_market_strength.getD 0
  let p : ℚ × ℚ :=
    if asent = "positive" then
      (min (0.4 + |ac| * 0.3) 1, min (|ac| * 2 + 2.5) 5)
    else if asent = "negative" then
      (max (-0.4 - |ac| * 0.3) (-1), min (|ac| * 2 + 1.5) 4)
    else if |ac| > 0.5 then
      (th ac * 0.6, min (|ac| * 1.5) 3)
    else
      ((if astr > 0 then astr * 0.3 else 0), astr * 1.5)
  (clipQ p.1 (-1) 1, clipQ p.2 0 10)

/-- `_calculate_european_market_score_with_impact` (lines 588‑614): returns
`(clip(score, -1, 1), clip(impact_pct, 0, 15))`. -/
def europeanWithImpact (th : ℚ → ℚ) (f : Features) : ℚ × ℚ :=
  let ec := f.european_market_change.getD 0
  let esent := f.european_market_sentiment.getD "neutral"
  let estr := f.european_market_strength.getD 0
  let p : ℚ × ℚ :=
    if esent = "positive" then
      (min (0.45 + |ec| * 0.35) 1, min (|ec| * 2.5 + 3.5) 8)
    else if esent = "negative" then
      (max (-0.45 - |ec| * 0.35) (-1), min (|ec| * 2.5 + 2.5) 7)
    else if |ec| > 0.5 then
      (th ec * 0.6, min (|ec| * 2) 5)
    else
      ((if estr > 0 then estr * 0.35 else 0), estr * 2)
  (clipQ p.1 (-1) 1, clipQ p.2 0 15)

/-- Breakdown dictionary built by `_calculate_local_us_factors`. -/
structure LocalFactors where
  technical : ℚ
  sentiment : ℚ
  volume : ℚ
  intraday : ℚ
  fundamentals : ℚ
  us_markets : ℚ

/-- `_calculate_local_us_factors` (lines 616‑709): six simplified local
sub-factors; the US-markets factor gets 40 % weight and the mean of the
other five gets 60 %; factors are clamped for the returned breakdown after
the blend is computed. -/
def localUsFactors (th : ℚ → ℚ) (f : Features) : ℚ × LocalFactors :=
  let rsi := f.rsi.getD 50
  let macd := f.macd.getD 0
  let tech0 : ℚ :=
    if rsi < 30 then 0.7
    else if rsi > 70 then -0.7
    else if rsi < 40 then 0.3
    else if rsi > 60 then -0.3
    else 0
  let tech := tech0 + (if macd ≠ 0 then th macd * 0.4 else 0)
  let sent := th (f.news_sentiment_score.getD 0 / 5) * 0.8
  let vr := f.volume_ratio.getD 1
  let vol : ℚ :=
    if vr > 1.5 then 0.6
    else if vr > 1.2 then 0.3
    else if vr < 0.8 then -0.2
    else 0
  let intra := th (f.intraday_change_percent.getD 0 / 3) * 0.5
  let pe := f.pe_percentile.getD 50
  let eg := f.earnings_growth.getD 0
  let fund := (pe - 50) / 50 * 0.4 + th (eg / 20) * 0.3
  let usi := f.us_market_influence_score.getD 0
  let uss := f.us_market_sentiment.getD "neutral"
  let usm : ℚ :=
    if uss = "negative" ∨ usi < -0.2 then max (-0.9) (usi * 1.2)
    else if uss = "positive" ∨ usi > 0.2 then min 0.9 (usi * 1.2)
    else usi * 0.8
  let otherAvg := (tech + sent + vol + intra + fund) / 5
  let localScore := usm * 0.40 + otherAvg * 0.60
  (clipQ localScore (-1) 1,
   { technical := clipQ tech (-1) 1
     sentiment := clipQ sent (-1) 1
     volume := clipQ vol (-1) 1
     intraday := clipQ intra (-1) 1
     fundamentals := clipQ fund (-1) 1
     us_markets := clipQ usm (-1) 1 })

/-- `_calculate_local_impact_percent` (lines 1159‑1179): tiered lookup on
the local score, clamped to `[0, 10]`.  The factors argument is unused by
the source as well. -/
def localImpactPercent (localScore : ℚ) (_factors : LocalFactors) : ℚ :=
  let ip : ℚ :=
    if localScore > 0.5 then 6 + (localScore - 0.5) * 4
    else if localScore > 0.3 then 4 + (localScore - 0.3) * 10
    else if localScore > 0 then 2 + localScore * 10
    else if localScore < -0.5 then 6 + |localScore - (-0.5)| * 4
    else if localScore < -0.3 then 4 + |localScore - (-0.3)| * 10
    else if localScore < 0 then 2 + |localScore| * 10
    else 1
  clipQ ip 0 10

/-! ### Volume scorer (`_calculate_volume_score_v2`) -/

/-- The direction-aware volume-ratio ladder of
`_calculate_volume_score_v2` (lines 723‑748). -/
def volumeBase (th : ℚ → ℚ) (vr pc : ℚ) : ℚ :=
  if vr > 2 then (if pc > 1 then 0.8 else if pc < -1 then -0.8 else 0.4)
  else if vr > 1.5 then (if pc > 1 then 0.6 else if pc < -1 then -0.6 else 0.3)
  else if vr > 1 then th (pc / 2) * 0.4
  else if vr > 0.8 then th (pc / 2) * 0.3
  else th (pc / 3) * 0.2

/-- `_calculate_volume_score_v2` (lines 711‑762): direction-aware volume
ladder, the asymmetric big-drop floor, then the volume-trend modifier, then
the clamp.  Note the floor fires only for `price_change < -2.0` (strict)
and is applied before the trend modifier. -/
def volumeScore (th : ℚ → ℚ) (f : Features) : ℚ :=
  let vr := f.volume_ratio.getD 1
  let vt := f.volume_trend.getD "stable"
  let pc := f.price_change_1d.getD 0
  let s0 := volumeBase th vr pc
  let s1 := if pc < -2 then min s0 (-0.5) else if pc < -1.5 then min s0 (-0.3) else s0
  let s2 := if vt = "up" then s1 + 0.1 else if vt = "down" then s1 - 0.05 else s1
  clipQ s2 (-1) 1

/-! ### Fundamental scorer (`_calculate_fundamental_score_v2`) -/

/-- `_calculate_fundamental_score_v2` (lines 764‑817): growth and margin
terms, categorical analyst/insider steps, and the always-counted PE
percentile term, then `clip(score / max(count, 1))`. -/
def fundamentalScore (th : ℚ → ℚ) (f : Features) : ℚ :=
  let rg := f.revenue_growth.getD 0
  let p1 : ℚ × ℕ := if |rg| > 0.5 then (th (rg / 25) * 0.7, 1) else (0, 0)
  let eg := f.earnings_growth.getD 0
  let p2 := if |eg| > 0.5 then (p1.1 + th (eg / 30) * 0.8, p1.2 + 1) else p1
  let mc := f.margin_change_percent.getD 0
  let p3 := if |mc| > 0.5 then (p2.1 + th (mc / 20) * 0.5, p2.2 + 1) else p2
  let aa := f.analyst_action.getD "none"
  let p4 := if aa = "upgrade" then (p3.1 + 0.6, p3.2 + 1)
    else if aa = "downgrade" then (p3.1 - 0.6, p3.2 + 1)
    else p3
  let ia := f.insider_activity.getD "neutral"
  let p5 := if ia = "buying" then (p4.1 + 0.5, p4.2 + 1)
    else if ia = "selling" then (p4.1 - 0.5, p4.2 + 1)
    else p4
  let pe := f.pe_percentile.getD 50
  let p6 := (p5.1 + (pe - 50) / 50 * 0.5, p5.2 + 1)
  let cnt := if p6.2 = 0 then 1 else p6.2
  clipQ (p6.1 / ((max cnt 1 : ℕ) : ℚ)) (-1) 1

/-! ### Intraday scorer (`_calculate_intraday_score`) -/

/-- `_calculate_intraday_score` (lines 819‑858): intraday change (or, when
flat, intraday volume activity — counted either way), the intraday-volume
ladder, and the open/close gap, then `clip(score / max(count, 1))`. -/
def intradayScore (th : ℚ → ℚ) (f : Features) : ℚ :=
  let ic := f.intraday_change_percent.getD 0
  let ivr := f.intraday_volume_ratio.getD 1
  let p1 : ℚ × ℕ :=
    if |ic| > 0.1 then (th (ic / 5) * 0.5, 1)
    else ((if ivr > 1 then (ivr - 1) * 0.1 else 0), 1)
  let p2 := if ivr > 1.5 then (p1.1 + th ((ivr - 1) * 2) * 0.3, p1.2 + 1)
    else if ivr > 1.1 then (p1.1 + (ivr - 1) * 0.2, p1.2 + 1)
    else p1
  let ocg := f.open_close_gap_percent.getD 0
  let p3 := if |ocg| > 0.1 then (p2.1 + th (ocg / 3) * 0.4, p2.2 + 1) else p2
  let cnt := if p3.2 = 0 then 1 else p3.2
  clipQ (p3.1 / ((max cnt 1 : ℕ) : ℚ)) (-1) 1

/-! ### Probability calibration and the predict pipeline -/

/-- Sentiment dampening applied by `predict` (lines 95‑106): when the 1-day
price move contradicts the sentiment sign strongly, sentiment is halved.
This is the `sentiment_score` value used everywhere downstream. -/
def sentAdj (th : ℚ → ℚ) (f : Features) : ℚ :=
  let s := sentimentScore th f
  let pc := f.price_change_1d.getD 0
  if pc < -2 ∧ s > 0.2 then s * 0.5
  else if pc > 2 ∧ s < -0.2 then s * 0.5
  else s

/-- The weighted composite score computed by `predict` (lines 117‑124). -/
def compositeScore (th : ℚ → ℚ) (f : Features) : ℚ :=
  technicalScore th f * wTechnical
  + sentAdj th f * wSentiment
  + globalScore th f * wGlobalMarkets
  + volumeScore th f * wVolume
  + fundamentalScore th f * wFundamentals
  + intradayScore th f * wIntraday

/-- `_calibrate_probability` (lines 860‑894).  `predict` always passes the
already-computed technical and (dampened) sentiment scores, so the
`None`-defaulted recomputation branch of the source is never taken and the
scores are plain arguments here.  The unused `base_probability` local of
the source is omitted. -/
def calibrateProbability (f : Features) (th : ℚ → ℚ)
    (composite tech sent : ℚ) : ℚ :=
  let adjusted := 0.5 + 0.45 * th (composite * 1.5)
  let adjusted := if (tech > 0.6 ∧ sent > 0.5) ∨ (tech < -0.6 ∧ sent < -0.5) then
      (let boost := min (|tech * sent| * 0.1) 0.12
       if adjusted > 0.5 then adjusted + boost else adjusted - boost)
    else adjusted
  let vol := f.volatility.getD 1
  let adjusted := if vol > 2.5 then
      (if adjusted > 0.75 then 0.75 + (adjusted - 0.75) * 0.6
       else if adjusted < 0.25 then 0.25 - (0.25 - adjusted) * 0.6
       else adjusted)
    else adjusted
  clipQ adjusted minConfidence maxConfidence

/-- The hard composite override of `predict` (lines 129‑135), applied to
the calibrated probability. -/
def overriddenProb (th : ℚ → ℚ) (f : Features) : ℚ :=
  let c := compositeScore th f
  let p0 := calibrateProbability f th c (technicalScore th f) (sentAdj th f)
  if c < -0.1 then min p0 0.44
  else if c > 0.1 then max p0 0.56
  else p0

/-- The final bullish probability of `predict` after the no-neutral-zone
correction (lines 137‑148). -/
def bullishProbRaw (th : ℚ → ℚ) (f : Features) : ℚ :=
  let p1 := overriddenProb th f
  if 0.45 < p1 ∧ p1 < 0.55 then
    (let strongest := max (max |technicalScore th f| |sentAdj th f|)
        (max |globalScore th f| |intradayScore th f|)
     if strongest > 0.3 then (if compositeScore th f ≥ 0 then 0.58 else 0.42)
     else (if compositeScore th f > 0 then 0.56 else 0.44))
  else p1

/-- `confidence` as computed by `predict` (line 154). -/
def confidenceRaw (th : ℚ → ℚ) (f : Features) : ℚ :=
  if bullishProbRaw th f > 0.5 then bullishProbRaw th f
  else 1 - bullishProbRaw th f

/-! ### Target-price projector (`_calculate_target_price_v2`) -/

/-- The magnitude computation of `_calculate_target_price_v2` (lines
908‑959): base move from confidence, volatility / influence / momentum
multipliers, the same-direction momentum floor, and the final
`np.clip(·, 0.5, 10.0)`. -/
def targetMagnitude (confidence : ℚ) (isBullish : Bool) (f : Features)
    (technical sentiment : ℚ) : ℚ :=
  let confidenceFactor := (confidence - 0.55) / 0.43
  let minChange : ℚ := 1.0
  let maxChange : ℚ := 8.0
  let baseChange := minChange + (maxChange - minChange) * confidenceFactor
  let gms := f.global_market_change.getD 0
  let vs := f.volume_ratio.getD 1
  let marketInfluence := max 0 (gms * 0.2 + (vs - 1) * 0.1)
  let vol := f.volatility.getD 1
  let volatilityMultiplier := min (vol / 1.8) 1.6
  let technicalInfluence := technical * 0.5
  let sentimentInfluence := sentiment * 0.6
  let combinedInfluence := technicalInfluence + sentimentInfluence
  let a1 := baseChange * volatilityMultiplier
  let a2 := a1 * (1 + combinedInfluence * 0.7)
  let a3 := a2 * (1 + marketInfluence)
  let pc1 := f.price_change_1d.getD 0
  let pc5 := f.price_change_5d.getD 0
  let a4 := if |pc1| > 1.5 then a3 * 1.25
    else if |pc1| > 1 then a3 * 1.15
    else if |pc1| > 0.5 then a3 * 1.05
    else a3
  let a5 := if |pc5| > 4 then a4 * 1.2
    else if |pc5| > 2.5 then a4 * 1.12
    else a4
  let a6 := if isBullish = true ∧ pc1 > 1 then max a5 (pc1 * 0.8)
    else if isBullish = false ∧ pc1 < -1 then max a5 (|pc1| * 0.8)
    else a5
  clipQ a6 0.5 10

/-- `_calculate_target_price_v2` (lines 896‑967): returns
`(target_price, change_percent)`.  `price_change_3d` is fetched by the
source but never used. -/
def calculateTargetPriceV2 (currentPrice confidence : ℚ) (isBullish : Bool)
    (f : Features) (technical sentiment : ℚ) : ℚ × ℚ :=
  let a7 := targetMagnitude confidence isBullish f technical sentiment
  let changePercent := if isBullish = true then a7 else -a7
  (currentPrice * (1 + changePercent / 100), changePercent)

/-- The `(target_price, target_change_percent)` pair computed inside
`predict` (lines 158‑165). -/
def targetPair (th : ℚ → ℚ) (f : Features) : ℚ × ℚ :=
  calculateTargetPriceV2 (f.current_price.getD 0) (confidenceRaw th f)
    (decide (bullishProbRaw th f > 0.5)) f (technicalScore th f) (sentAdj th f)

/-! ### Result records -/

/-- The `prediction` sub-record of a successful response (lines 196‑207).
All rounding matches the source (`round(x, 4)` / `round(x, 2)`). -/
structure Prediction where
  direction : String
  label : String
  bullish_probability : ℚ
  bearish_probability : ℚ
  confidence : ℚ
  predicted_price : ℚ
  target_change_percent : ℚ
  expected_pct_move : ℚ
  current_price : ℚ
  probability : ℚ

/-- The `scores` sub-record of a successful response (lines 208‑218). -/
structure Scores where
  technical : ℚ
  sentiment : ℚ
  global_markets : ℚ
  volume : ℚ
  fundamentals : ℚ
  intraday : ℚ
  composite : ℚ
  base_score : ℚ
  final_score : ℚ

/-- Result record of `predict`.  Fields the claims never mention (signals,
top reasons, per-region display data, contributions) are omitted; the
wall-clock `timestamp` is outside the pure model. -/
structure Response where
  success : Bool
  error : Option String := none
  model_version : String
  prediction : Option Prediction := none
  scores : Option Scores := none

/-- `_error_response` (lines 1197‑1204). -/
def errorResponse (msg : String) : Response :=
  { success := false, error := some msg, model_version := "6.0.0" }

/-- The `prediction` record built by a successful `predict` call. -/
def predictionOf (th : ℚ → ℚ) (f : Features) : Prediction :=
  { direction := if bullishProbRaw th f > 0.5 then "up" else "down"
    label := if bullishProbRaw th f > 0.5 then "BULLISH" else "BEARISH"
    bullish_probability := roundTo 4 (bullishProbRaw th f)
    bearish_probability := roundTo 4 (1 - bullishProbRaw th f)
    confidence := roundTo 4 (confidenceRaw th f)
    predicted_price := roundTo 2 (targetPair th f).1
    target_change_percent := roundTo 2 (targetPair th f).2
    expected_pct_move := roundTo 2 (targetPair th f).2
    current_price := roundTo 2 (f.current_price.getD 0)
    probability := roundTo 4 (confidenceRaw th f) }

/-- The `scores` record built by a successful `predict` call. -/
def scoresOf (th : ℚ → ℚ) (f : Features) : Scores :=
  { technical := roundTo 3 (technicalScore th f)
    sentiment := roundTo 3 (sentAdj th f)
    global_markets := roundTo 3 (globalScore th f)
    volume := roundTo 3 (volumeScore th f)
    fundamentals := roundTo 3 (fundamentalScore th f)
    intraday := roundTo 3 (intradayScore th f)
    composite := roundTo 3 (compositeScore th f)
    base_score := roundTo 3 (compositeScore th f)
    final_score := roundTo 3 (compositeScore th f) }

/-- The body of `predict` after input validation (lines 87‑250). -/
def predictBody (th : ℚ → ℚ) (f : Features) : Response :=
  { success := true
    model_version := "6.0.0"
    prediction := some (predictionOf th f)
    scores := some (scoresOf th f) }

/-- The orchestrator skeleton of `predict` (lines 78‑85 and 252‑253): the
current-price validation, and the `try/except` boundary that converts any
failure of the body into `_error_response(f"Prediction error: {e}")`.
The body is a parameter so the exception-conversion behaviour is provable
for every possible body outcome. -/
def predictChecked (body : Features → Except String Response) (f : Features) :
    Response :=
  if f.current_price.getD 0 ≤ 0 then errorResponse "Invalid current price"
  else
    match body f with
    | Except.ok r => r
    | Except.error e => errorResponse ("Prediction error: " ++ e)

/-- `QuickModelV6.predict`: the model's body (pure in this embedding)
wrapped by the orchestrator boundary. -/
def predict (th : ℚ → ℚ) (f : Features) : Response :=
  predictChecked (fun g => Except.ok (predictBody th g)) f

/-! ### Structural lemmas about the probability pipeline -/

lemma calibrateProbability_mem (f : Features) (th : ℚ → ℚ) (c t s : ℚ) :
    0.55 ≤ calibrateProbability f th c t s ∧ calibrateProbability f th c t s ≤ 0.98 := by
  have h := clipQ_mem (((fun adjusted =>
    if (f.volatility.getD 1) > 2.5 then
      (if adjusted > 0.75 then 0.75 + (adjusted - 0.75) * 0.6
       else if adjusted < 0.25 then 0.25 - (0.25 - adjusted) * 0.6
       else adjusted)
    else adjusted) (if (t > 0.6 ∧ s > 0.5) ∨ (t < -0.6 ∧ s < -0.5) then
      (let boost := min (|t * s| * 0.1) 0.12
       if 0.5 + 0.45 * th (c * 1.5) > 0.5 then 0.5 + 0.45 * th (c * 1.5) + boost
       else 0.5 + 0.45 * th (c * 1.5) - boost)
    else 0.5 + 0.45 * th (c * 1.5)))) minConfidence maxConfidence
    (by norm_num [minConfidence, maxConfidence])
  simpa [calibrateProbability, minConfidence, maxConfidence] using h

lemma overriddenProb_neg {th : ℚ → ℚ} {f : Features}
    (hc : compositeScore th f < -0.1) : overriddenProb th f = 0.44 := by
  have h := calibrateProbability_mem f th (compositeScore th f)
    (technicalScore th f) (sentAdj th f)
  simp only [overriddenProb, if_pos hc]
  rw [min_eq_right]
  linarith [h.1]

lemma overriddenProb_pos {th : ℚ → ℚ} {f : Features}
    (hc : 0.1 < compositeScore th f) :
    0.56 ≤ overriddenProb th f ∧ overriddenProb th f ≤ 0.98 := by
  have h := calibrateProbability_mem f th (compositeScore th f)
    (technicalScore th f) (sentAdj th f)
  have hnn : ¬ compositeScore th f < -0.1 := by linarith
  simp only [overriddenProb, if_neg hnn, if_pos hc]
  exact ⟨le_max_right _ _, max_le h.2 (by norm_num)⟩

lemma overriddenProb_cases (th : ℚ → ℚ) (f : Features) :
    (compositeScore th f < -0.1 ∧ overriddenProb th f = 0.44) ∨
    (0.55 ≤ overriddenProb th f ∧ overriddenProb th f ≤ 0.98) := by
  have h := calibrateProbability_mem f th (compositeScore th f)
    (technicalScore th f) (sentAdj th f)
  by_cases h1 : compositeScore th f < -0.1
  · exact Or.inl ⟨h1, overriddenProb_neg h1⟩
  · by_cases h2 : 0.1 < compositeScore th f
    · have := overriddenProb_pos h2
      exact Or.inr ⟨by linarith [this.1], this.2⟩
    · right
      simp only [overriddenProb, if_neg h1, if_neg h2]
      exact h

lemma bullishProbRaw_eq_overridden (th : ℚ → ℚ) (f : Features) :
    bullishProbRaw th f = overriddenProb th f := by
  have hne : ¬ (0.45 < overriddenProb th f ∧ overriddenProb th f < 0.55) := by
    rcases overriddenProb_cases th f with ⟨_, he⟩ | ⟨hl, _⟩
    · rw [he]; norm_num
    · intro hc; linarith [hc.2]
  simp only [bullishProbRaw, if_neg hne]

lemma bullishProbRaw_cases (th : ℚ → ℚ) (f : Features) :
    (compositeScore th f < -0.1 ∧ bullishProbRaw th f = 0.44) ∨
    (0.55 ≤ bullishProbRaw th f ∧ bullishProbRaw th f ≤ 0.98) := by
  rw [bullishProbRaw_eq_overridden]
  exact overriddenProb_cases th f

lemma predict_pos {th : ℚ → ℚ} {f : Features}
    (hs : (predict th f).success = true) : ¬ f.current_price.getD 0 ≤ 0 := by
  intro h
  unfold predict predictChecked at hs
  rw [if_pos h] at hs
  simp [errorResponse] at hs

lemma predict_prediction {th : ℚ → ℚ} {f : Features}
    (hs : (predict th f).success = true) :
    (predict th f).prediction = some (predictionOf th f) := by
  unfold predict predictChecked
  rw [if_neg (predict_pos hs)]
  rfl

/-! ### Concrete rounding values -/

lemma round4_044 : roundTo 4 (0.44 : ℚ) = 0.44 := roundTo_eq_self 4400 (by norm_num)

lemma round4_055 : roundTo 4 (0.55 : ℚ) = 0.55 := roundTo_eq_self 5500 (by norm_num)

lemma round4_056 : roundTo 4 (0.56 : ℚ) = 0.56 := roundTo_eq_self 5600 (by norm_num)

lemma round2_half : roundTo 2 (0.5 : ℚ) = 0.5 := roundTo_eq_self 50 (by norm_num)

lemma round2_ten : roundTo 2 (10 : ℚ) = 10 := roundTo_eq_self 1000 (by norm_num)

lemma round2_neg_half : roundTo 2 (-0.5 : ℚ) = -0.5 :=
  roundTo_eq_self (-50) (by norm_num)

lemma round2_neg_ten : roundTo 2 (-10 : ℚ) = -10 :=
  roundTo_eq_self (-1000) (by norm_num)

/-! ### Claim theorems -/

/-- Claim C1: for every feature record on which `predict` succeeds, the
returned `bullish_probability` never lies in the open interval
`(0.45, 0.55)`, and the returned `direction` is always `"up"` or `"down"`
(never neutral), with `direction = "up"` exactly when
`bullish_probability > 0.5`. -/
theorem claim_C1_no_neutral_zone (th : ℚ → ℚ) (f : Features)
    (hs : (predict th f).success = true) :
    (predict th f).prediction = some (predictionOf th f) ∧
    ¬ (0.45 < (predictionOf th f).bullish_probability ∧
       (predictionOf th f).bullish_probability < 0.55) ∧
    ((predictionOf th f).direction = "up" ∨ (predictionOf th f).direction = "down") ∧
    ((predictionOf th f).direction = "up" ↔
      0.5 < (predictionOf th f).bullish_probability) := by
  have hbp : (predictionOf th f).bullish_probability =
      roundTo 4 (bullishProbRaw th f) := rfl
  have hdir : (predictionOf th f).direction =
      (if bullishProbRaw th f > 0.5 then "up" else "down") := rfl
  refine ⟨predict_prediction hs, ?_, ?_, ?_⟩
  · rcases bullishProbRaw_cases th f with ⟨_, he⟩ | ⟨h1, _⟩
    · rw [hbp, he, round4_044]; norm_num
    · have : (0.55 : ℚ) ≤ roundTo 4 (bullishProbRaw th f) := by
        calc (0.55 : ℚ) = roundTo 4 0.55 := round4_055.symm
        _ ≤ roundTo 4 (bullishProbRaw th f) := roundTo_mono 4 h1
      rw [hbp]
      intro hc
      linarith [hc.2]
  · rw [hdir]
    by_cases h : bullishProbRaw th f > 0.5
    · rw [if_pos h]; exact Or.inl rfl
    · rw [if_neg h]; exact Or.inr rfl
  · rw [hdir, hbp]
    rcases bullishProbRaw_cases th f with ⟨_, he⟩ | ⟨h1, _⟩
    · rw [he, round4_044]
      have hno : ¬ ((0.44 : ℚ) > 0.5) := by norm_num
      rw [if_neg hno]
      constructor
      · intro habs; exact absurd habs (by decide)
      · intro habs; norm_num at habs
    · have h05 : bullishProbRaw th f > 0.5 := by linarith
      rw [if_pos h05]
      have : (0.55 : ℚ) ≤ roundTo 4 (bullishProbRaw th f) := by
        calc (0.55 : ℚ) = roundTo 4 0.55 := round4_055.symm
        _ ≤ roundTo 4 (bullishProbRaw th f) := roundTo_mono 4 h1
      constructor
      · intro _; linarith
      · intro _; rfl

/-- Claim C1 witness at a concrete valid input. -/
def wNeutral : Features := { current_price := some 100 }

lemma wNeutral_success : (predict ratTanh wNeutral).success = true := by
  norm_num [predict, predictChecked, predictBody, wNeutral]

theorem claim_C1_witness :
    (predict ratTanh wNeutral).success = true ∧
    ((predict ratTanh wNeutral).prediction = some (predictionOf ratTanh wNeutral) ∧
     ¬ (0.45 < (predictionOf ratTanh wNeutral).bullish_probability ∧
        (predictionOf ratTanh wNeutral).bullish_probability < 0.55) ∧
     ((predictionOf ratTanh wNeutral).direction = "up" ∨
      (predictionOf ratTanh wNeutral).direction = "down") ∧
     ((predictionOf ratTanh wNeutral).direction = "up" ↔
       0.5 < (predictionOf ratTanh wNeutral).bullish_probability)) :=
  ⟨wNeutral_success, claim_C1_no_neutral_zone ratTanh wNeutral wNeutral_success⟩

/-- Claim C2: hard override law — if the weighted composite score is below
`-0.1` the returned `bullish_probability` is at most `0.44`, and if it is
above `0.1` the returned `bullish_probability` is at least `0.56`,
regardless of the calibration / boost / dampening output (the theorem
quantifies over every `th`). -/
theorem claim_C2_hard_override (th : ℚ → ℚ) (f : Features)
    (hs : (predict th f).success = true) :
    (predict th f).prediction = some (predictionOf th f) ∧
    (compositeScore th f < -0.1 →
      (predictionOf th f).bullish_probability ≤ 0.44) ∧
    (0.1 < compositeScore th f →
      0.56 ≤ (predictionOf th f).bullish_probability) := by
  have hbp : (predictionOf th f).bullish_probability =
      roundTo 4 (bullishProbRaw th f) := rfl
  refine ⟨predict_prediction hs, ?_, ?_⟩
  · intro hc
    rw [hbp, bullishProbRaw_eq_overridden, overriddenProb_neg hc, round4_044]
  · intro hc
    have h := (overriddenProb_pos hc).1
    rw [hbp, bullishProbRaw_eq_overridden]
    calc (0.56 : ℚ) = roundTo 4 0.56 := round4_056.symm
    _ ≤ roundTo 4 (overriddenProb th f) := roundTo_mono 4 h

/-- Claim C2 witness: a record whose composite score exceeds `0.1`. -/
def wBullish : Features :=
  { current_price := some 100, asian_market_sentiment := some "positive",
    futures_sentiment := some "positive" }

lemma wBullish_success : (predict ratTanh wBullish).success = true := by
  norm_num [predict, predictChecked, predictBody, wBullish]

lemma wBullish_composite : 0.1 < compositeScore ratTanh wBullish := by
  norm_num +decide [compositeScore, technicalScore, sentimentScore, sentAdj,
    globalScore, volumeScore, volumeBase, fundamentalScore, intradayScore,
    wBullish, clipQ, ratTanh, wTechnical, wSentiment, wGlobalMarkets, wVolume,
    wFundamentals, wIntraday]

theorem claim_C2_witness :
    (predict ratTanh wBullish).success = true ∧
    0.1 < compositeScore ratTanh wBullish ∧
    0.56 ≤ (predictionOf ratTanh wBullish).bullish_probability :=
  ⟨wBullish_success, wBullish_composite,
   (claim_C2_hard_override ratTanh wBullish wBullish_success).2.2 wBullish_composite⟩

/-- Claim C3: whenever `predict` succeeds and returns direction `"down"`,
the pre-rounding bullish probability is exactly `0.44`, the pre-rounding
confidence is exactly `0.56`, and the composite score is below `-0.1`
(the calibrator clamps to `[0.55, 0.98]`, so the only path below `0.5` is
the hard override `min(p, 0.44)`). -/
theorem claim_C3_down_is_override (th : ℚ → ℚ) (f : Features)
    (hs : (predict th f).success = true)
    (hd : (predictionOf th f).direction = "down") :
    bullishProbRaw th f = 0.44 ∧ confidenceRaw th f = 0.56 ∧
    compositeScore th f < -0.1 ∧
    (predict th f).prediction = some (predictionOf th f) := by
  have hnot : ¬ bullishProbRaw th f > 0.5 := by
    intro h
    have hup : (predictionOf th f).direction = "up" := by
      show (if bullishProbRaw th f > 0.5 then "up" else "down") = "up"
      rw [if_pos h]
    rw [hd] at hup
    exact absurd hup (by decide)
  rcases bullishProbRaw_cases th f with ⟨hc, he⟩ | ⟨h1, _⟩
  · refine ⟨he, ?_, hc, predict_prediction hs⟩
    unfold confidenceRaw
    rw [if_neg hnot, he]
    norm_num
  · exact absurd (by linarith : bullishProbRaw th f > 0.5) hnot

/-- Claim C3 witness: a record predicted `"down"`. -/
def wBearish : Features :=
  { current_price := some 100, asian_market_sentiment := some "negative",
    futures_sentiment := some "negative" }

lemma wBearish_success : (predict ratTanh wBearish).success = true := by
  norm_num [predict, predictChecked, predictBody, wBearish]

lemma wBearish_down : (predictionOf ratTanh wBearish).direction = "down" := by
  norm_num +decide [predictionOf, bullishProbRaw, overriddenProb,
    calibrateProbability, compositeScore, technicalScore, sentimentScore,
    sentAdj, globalScore, volumeScore, volumeBase, fundamentalScore,
    intradayScore, wBearish, clipQ, ratTanh, wTechnical, wSentiment,
    wGlobalMarkets, wVolume, wFundamentals, wIntraday, minConfidence,
    maxConfidence]

theorem claim_C3_witness :
    (predict ratTanh wBearish).success = true ∧
    (predictionOf ratTanh wBearish).direction = "down" ∧
    (bullishProbRaw ratTanh wBearish = 0.44 ∧
     confidenceRaw ratTanh wBearish = 0.56 ∧
     compositeScore ratTanh wBearish < -0.1 ∧
     (predict ratTanh wBearish).prediction = some (predictionOf ratTanh wBearish)) :=
  ⟨wBearish_success, wBearish_down,
   claim_C3_down_is_override ratTanh wBearish wBearish_success wBearish_down⟩

/-- Claim C4: on every successful prediction the returned
`bullish_probability` and `bearish_probability` (each independently rounded
to 4 decimal places, as in the source) sum to exactly 1. -/
theorem claim_C4_probabilities_sum (th : ℚ → ℚ) (f : Features)
    (hs : (predict th f).success = true) :
    (predict th f).prediction = some (predictionOf th f) ∧
    (predictionOf th f).bullish_probability +
      (predictionOf th f).bearish_probability = 1 :=
  ⟨predict_prediction hs, roundTo_add_compl (bullishProbRaw th f)⟩

theorem claim_C4_witness :
    (predict ratTanh wNeutral).success = true ∧
    ((predict ratTanh wNeutral).prediction = some (predictionOf ratTanh wNeutral) ∧
     (predictionOf ratTanh wNeutral).bullish_probability +
       (predictionOf ratTanh wNeutral).bearish_probability = 1) :=
  ⟨wNeutral_success, claim_C4_probabilities_sum ratTanh wNeutral wNeutral_success⟩

/-- Claim C5: every component scorer and every region scorer returns a
score in `[-1, 1]` (each clamps before returning), and every region impact
percentage lies within its region ceiling: Asian in `[0, 10]`, European in
`[0, 15]`, Local-US in `[0, 10]`. -/
theorem claim_C5_bounded_scores (th : ℚ → ℚ) (f : Features) :
    (-1 ≤ technicalScore th f ∧ technicalScore th f ≤ 1) ∧
    (-1 ≤ sentimentScore th f ∧ sentimentScore th f ≤ 1) ∧
    (-1 ≤ globalScore th f ∧ globalScore th f ≤ 1) ∧
    (-1 ≤ volumeScore th f ∧ volumeScore th f ≤ 1) ∧
    (-1 ≤ fundamentalScore th f ∧ fundamentalScore th f ≤ 1) ∧
    (-1 ≤ intradayScore th f ∧ intradayScore th f ≤ 1) ∧
    (-1 ≤ (asianWithImpact th f).1 ∧ (asianWithImpact th f).1 ≤ 1) ∧
    (-1 ≤ (europeanWithImpact th f).1 ∧ (europeanWithImpact th f).1 ≤ 1) ∧
    (-1 ≤ (localUsFactors th f).1 ∧ (localUsFactors th f).1 ≤ 1) ∧
    (0 ≤ (asianWithImpact th f).2 ∧ (asianWithImpact th f).2 ≤ 10) ∧
    (0 ≤ (europeanWithImpact th f).2 ∧ (europeanWithImpact th f).2 ≤ 15) ∧
    (0 ≤ localImpactPercent (localUsFactors th f).1 (localUsFactors th f).2 ∧
     localImpactPercent (localUsFactors th f).1 (localUsFactors th f).2 ≤ 10) := by
  refine ⟨?_, ?_, ?_, ?_, ?_, ?_, ?_, ?_, ?_, ?_, ?_, ?_⟩ <;>
    exact clipQ_mem _ _ _ (by norm_num)

/-- Claim C6 counterexample.  The claim asserts: `price_change_1d ≤ -2`
forces a volume score of at most `-0.5` regardless of volume ratio and of
the volume-trend modifier.  At exactly `-2` the floor (strict `< -2.0` in
the code) does not fire and the score is `-0.3`; and for `-2.5` with a
rising volume trend the `+0.1` modifier is applied after the floor,
yielding `-0.4`. -/
def wDropBoundary : Features := { price_change_1d := some (-2) }

def wDropTrendUp : Features :=
  { price_change_1d := some (-5/2), volume_trend := some "up" }

theorem claim_C6_counterexample :
    wDropBoundary.price_change_1d.getD 0 ≤ -2 ∧
    volumeScore ratTanh wDropBoundary = -0.3 ∧
    ¬ volumeScore ratTanh wDropBoundary ≤ -0.5 ∧
    wDropTrendUp.price_change_1d.getD 0 ≤ -2 ∧
    volumeScore ratTanh wDropTrendUp = -0.4 ∧
    ¬ volumeScore ratTanh wDropTrendUp ≤ -0.5 := by
  refine ⟨by norm_num [wDropBoundary], ?_, ?_, by norm_num [wDropTrendUp], ?_, ?_⟩ <;>
    norm_num +decide [volumeScore, volumeBase, wDropBoundary, wDropTrendUp,
      clipQ, ratTanh, abs, min_def, max_def]

/-- Claim C6 amended: a same-day decline strictly greater than 2 %
(`price_change_1d < -2`) forces the volume score to at most `-0.5` before
the volume-trend modifier; after the modifier the returned score is at most
`-0.4` in general, and at most `-0.5` whenever the volume trend is not
`"up"` — regardless of the volume ratio. -/
theorem claim_C6_amended (th : ℚ → ℚ) (f : Features)
    (h : f.price_change_1d.getD 0 < -2) :
    volumeScore th f ≤ -0.4 ∧
    (f.volume_trend.getD "stable" ≠ "up" → volumeScore th f ≤ -0.5) := by
  have hm : min (volumeBase th (f.volume_ratio.getD 1) (f.price_change_1d.getD 0))
      (-0.5 : ℚ) ≤ -0.5 := min_le_right _ _
  constructor
  · simp only [volumeScore]
    split_ifs <;>
      exact clipQ_le_of_le (by linarith) (by norm_num)
  · intro hvt
    simp only [volumeScore]
    split_ifs <;>
      first
        | exact absurd (by assumption) hvt
        | exact clipQ_le_of_le (by linarith) (by norm_num)

def wDropStable : Features :=
  { price_change_1d := some (-3), volume_trend := some "down" }

theorem claim_C6_amended_witness :
    wDropStable.price_change_1d.getD 0 < -2 ∧
    volumeScore ratTanh wDropStable ≤ -0.4 ∧
    volumeScore ratTanh wDropStable ≤ -0.5 :=
  ⟨by norm_num [wDropStable],
   (claim_C6_amended ratTanh wDropStable (by norm_num [wDropStable])).1,
   (claim_C6_amended ratTanh wDropStable (by norm_num [wDropStable])).2
     (by decide)⟩

/-- Claim C7 counterexample.  The claim asserts that every evaluated
sub-signal increments the evaluation counter and the final technical score
is the accumulated sum divided by that counter.  On a record whose only
active sub-signal is a support bounce, the sum is `0.5` but the counter
stays `0`, and the scorer returns `0` instead of `clip(0.5 / 1) = 0.5`. -/
def wBounceOnly : Features := { bounce_from_support := some true }

theorem claim_C7_counterexample :
    technicalScore ratTanh wBounceOnly = 0 ∧
    techSum ratTanh wBounceOnly = 0.5 ∧
    techCount wBounceOnly = 0 ∧
    ¬ technicalScore ratTanh wBounceOnly =
        clipQ (techSum ratTanh wBounceOnly / 1) (-1) 1 := by
  refine ⟨?_, ?_, ?_, ?_⟩ <;>
    norm_num +decide [technicalScore, techSum, techCount, wBounceOnly, clipQ,
      supportContrib, resistanceContrib]

set_option maxHeartbeats 3200000 in
/-- Claim C7 amended: only the RSI, MACD-histogram, moving-average,
Bollinger and the 1-day and 5-day momentum blocks increment the counter; the
MACD-divergence, golden/death-cross and support/resistance sub-signals
adjust the accumulated sum without incrementing it.  The final technical
score is `clip(sum / count, -1, 1)` when the counter is positive and `0`
otherwise (so a record with only support/resistance evidence scores `0`). -/
theorem claim_C7_amended (th : ℚ → ℚ) (f : Features) :
    technicalScore th f =
      clipQ (if 0 < techCount f then techSum th f / (techCount f : ℚ) else 0)
        (-1) 1 := by
  rcases hr : f.rsi with _ | r <;>
  rcases hm : f.macd_histogram with _ | m <;>
  rcases h20 : f.sma_20 with _ | a <;>
  rcases h50 : f.sma_50 with _ | b <;>
  rcases hcp : f.current_price with _ | cp <;>
  rcases hbb : f.bollinger_position with _ | bb <;>
  by_cases hp1 : |f.price_change_1d.getD 0| > 0 <;>
  by_cases hp5 : |f.price_change_5d.getD 0| > 0 <;>
  simp only [technicalScore, techSum, techCount, hr, hm, h20, h50, hcp, hbb,
    hp1, hp5, if_true, if_false, eq_self_iff_true, not_true, not_false_iff,
    ite_true, ite_false] <;>
  norm_num <;>
  ring_nf

lemma targetMagnitude_mem (conf : ℚ) (bull : Bool) (f : Features) (t s : ℚ) :
    0.5 ≤ targetMagnitude conf bull f t s ∧ targetMagnitude conf bull f t s ≤ 10 := by
  unfold targetMagnitude
  exact clipQ_mem _ _ _ (by norm_num)

/-- Claim C8: on every successful prediction, the sign of
`target_change_percent` matches the predicted direction (positive iff
`"up"`), its absolute value lies in the global clamp bounds `[0.5, 10]`,
and the projected target price equals
`current_price * (1 + target_change_percent / 100)` (stated on the
projector's exact pre-rounding output pair `targetPair`). -/
theorem claim_C8_target_projection (th : ℚ → ℚ) (f : Features)
    (hs : (predict th f).success = true) :
    (predict th f).prediction = some (predictionOf th f) ∧
    ((predictionOf th f).direction = "up" ↔
      0 < (predictionOf th f).target_change_percent) ∧
    (0.5 ≤ |(predictionOf th f).target_change_percent| ∧
     |(predictionOf th f).target_change_percent| ≤ 10) ∧
    (targetPair th f).1 =
      f.current_price.getD 0 * (1 + (targetPair th f).2 / 100) := by
  have hM := targetMagnitude_mem (confidenceRaw th f)
    (decide (bullishProbRaw th f > 0.5)) f (technicalScore th f) (sentAdj th f)
  have htc : (predictionOf th f).target_change_percent =
      roundTo 2 (targetPair th f).2 := rfl
  have hdir : (predictionOf th f).direction =
      (if bullishProbRaw th f > 0.5 then "up" else "down") := rfl
  by_cases hb : bullishProbRaw th f > 0.5
  · have hp2 : (targetPair th f).2 = targetMagnitude (confidenceRaw th f)
        (decide (bullishProbRaw th f > 0.5)) f (technicalScore th f)
        (sentAdj th f) := by
      show (if (decide (bullishProbRaw th f > 0.5)) = true then _ else _) = _
      rw [if_pos (decide_eq_true hb)]
    have hr1 : (0.5 : ℚ) ≤ roundTo 2 (targetPair th f).2 := by
      rw [hp2]
      calc (0.5 : ℚ) = roundTo 2 0.5 := round2_half.symm
      _ ≤ _ := roundTo_mono 2 hM.1
    have hr2 : roundTo 2 (targetPair th f).2 ≤ 10 := by
      rw [hp2]
      calc roundTo 2 _ ≤ roundTo 2 10 := roundTo_mono 2 hM.2
      _ = 10 := round2_ten
    refine ⟨predict_prediction hs, ?_, ?_, rfl⟩
    · rw [hdir, if_pos hb, htc]
      constructor
      · intro _; linarith
      · intro _; rfl
    · rw [htc, abs_of_pos (by linarith)]
      exact ⟨hr1, hr2⟩
  · have hp2 : (targetPair th f).2 = - targetMagnitude (confidenceRaw th f)
        (decide (bullishProbRaw th f > 0.5)) f (technicalScore th f)
        (sentAdj th f) := by
      show (if (decide (bullishProbRaw th f > 0.5)) = true then _ else _) = _
      rw [if_neg]
      rw [decide_eq_false hb]
      simp
    have hr1 : roundTo 2 (targetPair th f).2 ≤ -0.5 := by
      rw [hp2]
      calc roundTo 2 _ ≤ roundTo 2 (-0.5) := roundTo_mono 2 (by linarith [hM.1])
      _ = -0.5 := round2_neg_half
    have hr2 : (-10 : ℚ) ≤ roundTo 2 (targetPair th f).2 := by
      rw [hp2]
      calc (-10 : ℚ) = roundTo 2 (-10) := round2_neg_ten.symm
      _ ≤ _ := roundTo_mono 2 (by linarith [hM.2])
    refine ⟨predict_prediction hs, ?_, ?_, rfl⟩
    · rw [hdir, if_neg hb, htc]
      constructor
      · intro habs; exact absurd habs (by decide)
      · intro habs; linarith
    · rw [htc, abs_of_neg (by linarith)]
      constructor <;> linarith

theorem claim_C8_witness :
    (predict ratTanh wNeutral).success = true ∧
    ((predict ratTanh wNeutral).prediction = some (predictionOf ratTanh wNeutral) ∧
     ((predictionOf ratTanh wNeutral).direction = "up" ↔
       0 < (predictionOf ratTanh wNeutral).target_change_percent) ∧
     (0.5 ≤ |(predictionOf ratTanh wNeutral).target_change_percent| ∧
      |(predictionOf ratTanh wNeutral).target_change_percent| ≤ 10) ∧
     (targetPair ratTanh wNeutral).1 =
       wNeutral.current_price.getD 0 * (1 + (targetPair ratTanh wNeutral).2 / 100)) :=
  ⟨wNeutral_success, claim_C8_target_projection ratTanh wNeutral wNeutral_success⟩

/-- Claim C9: a missing or non-positive `current_price` yields the typed
error result (success `false`, descriptive message, model version, no
prediction, no scores); and any failure of the prediction body is caught at
the orchestrator boundary (`predictChecked`) and converted to the same
typed error shape carrying the exception message, never propagated. -/
theorem claim_C9_error_handling (th : ℚ → ℚ)
    (body : Features → Except String Response) (f : Features) :
    (f.current_price.getD 0 ≤ 0 →
      predict th f = errorResponse "Invalid current price" ∧
      (predict th f).success = false ∧
      (predict th f).error = some "Invalid current price" ∧
      (predict th f).prediction = none ∧
      (predict th f).scores = none ∧
      (predict th f).model_version = "6.0.0") ∧
    (∀ e, ¬ f.current_price.getD 0 ≤ 0 → body f = Except.error e →
      predictChecked body f = errorResponse ("Prediction error: " ++ e) ∧
      (predictChecked body f).success = false ∧
      (predictChecked body f).prediction = none ∧
      (predictChecked body f).error = some ("Prediction error: " ++ e)) := by
  constructor
  · intro h
    have hp : predict th f = errorResponse "Invalid current price" := by
      unfold predict predictChecked
      rw [if_pos h]
    exact ⟨hp, by rw [hp]; rfl, by rw [hp]; rfl, by rw [hp]; rfl, by rw [hp]; rfl,
      by rw [hp]; rfl⟩
  · intro e hpos hbody
    have hp : predictChecked body f = errorResponse ("Prediction error: " ++ e) := by
      unfold predictChecked
      rw [if_neg hpos, hbody]
    exact ⟨hp, by rw [hp]; rfl, by rw [hp]; rfl, by rw [hp]; rfl⟩

def wEmpty : Features := {}

theorem claim_C9_witness :
    (wEmpty.current_price.getD 0 ≤ 0 ∧
     predict ratTanh wEmpty = errorResponse "Invalid current price" ∧
     (predict ratTanh wEmpty).success = false) ∧
    (predictChecked (fun _ => Except.error "boom") wNeutral =
       errorResponse ("Prediction error: " ++ "boom") ∧
     (predictChecked (fun _ => Except.error "boom") wNeutral).success = false) :=
  ⟨⟨by norm_num [wEmpty],
    ((claim_C9_error_handling ratTanh (fun g => Except.ok (predictBody ratTanh g))
        wEmpty).1 (by norm_num [wEmpty])).1,
    ((claim_C9_error_handling ratTanh (fun g => Except.ok (predictBody ratTanh g))
        wEmpty).1 (by norm_num [wEmpty])).2.1⟩,
   ⟨((claim_C9_error_handling ratTanh (fun _ => Except.error "boom") wNeutral).2
       "boom" (by norm_num [wNeutral]) rfl).1,
    ((claim_C9_error_handling ratTanh (fun _ => Except.error "boom") wNeutral).2
       "boom" (by norm_num [wNeutral]) rfl).2.1⟩⟩

set_option maxHeartbeats 1600000 in
/-- Claim C10: holding every other feature fixed, the RSI contribution to
the technical score is monotonically non-increasing as RSI rises from 20
to 90 (oversold contributes positively, overbought negatively). -/
theorem claim_C10_rsi_monotone (r1 r2 : ℚ) (h1 : 20 ≤ r1) (h2 : r1 < r2)
    (h3 : r2 ≤ 90) : rsiContrib r2 ≤ rsiContrib r1 := by
  unfold rsiContrib
  split_ifs <;> linarith

theorem claim_C10_witness :
    (20 : ℚ) ≤ 20 ∧ (20 : ℚ) < 90 ∧ (90 : ℚ) ≤ 90 ∧
    rsiContrib 90 ≤ rsiContrib 20 :=
  ⟨le_refl _, by norm_num, le_refl _,
   claim_C10_rsi_monotone 20 90 (le_refl _) (by norm_num) (le_refl _)⟩

end QuickV6
